import Mathlib

/-!
Verification of the EdgeX–Lighter cross-venue arbitrage backend.

The definitions below are shallow embeddings of the Python source under
`backend/`: prices, sizes and timestamps are rationals (the source uses
`Decimal` for prices and `time.time()` floats for timestamps), optional
values are `Option`, and Python exceptions on the modelled paths are
`Except` errors.  Each stateful class is a structure, and each method is a
pure function from the old state (plus the method's inputs) to the new
state and its observable outputs.
-/

namespace Arb

/-- Best-bid/offer record, from `order_book_manager.BBO`.
`bid`/`ask`/`bid_size`/`ask_size` are `Optional[Decimal]` in the source. -/
structure BBO where
  bid : Option ℚ := none
  ask : Option ℚ := none
  bid_size : Option ℚ := none
  ask_size : Option ℚ := none
  timestamp : ℚ := 0
  deriving Repr, DecidableEq

/-- State of `order_book_manager.OrderBookManager`: one BBO per venue plus
the per-venue readiness flags (the underlying depth books are not needed by
the claims about this class). -/
structure OrderBookManager where
  edgex_bbo : BBO := {}
  lighter_bbo : BBO := {}
  edgex_ready : Bool := false
  lighter_ready : Bool := false
  deriving Repr, DecidableEq

/-- `OrderBookManager.update_edgex_bbo`: each side that is not `None`
overwrites the stored value; the timestamp is refreshed and the venue is
marked ready.  The source performs no validation of the incoming quote. -/
def update_edgex_bbo (m : OrderBookManager)
    (bid ask bid_size ask_size : Option ℚ) (now : ℚ) : OrderBookManager :=
  let b0 := m.edgex_bbo
  let b1 := match bid with | some v => { b0 with bid := some v } | none => b0
  let b2 := match ask with | some v => { b1 with ask := some v } | none => b1
  let b3 := match bid_size with | some v => { b2 with bid_size := some v } | none => b2
  let b4 := match ask_size with | some v => { b3 with ask_size := some v } | none => b3
  { m with edgex_bbo := { b4 with timestamp := now }, edgex_ready := true }

/-- `OrderBookManager.update_lighter_bbo`: same shape as the EdgeX update. -/
def update_lighter_bbo (m : OrderBookManager)
    (bid ask bid_size ask_size : Option ℚ) (now : ℚ) : OrderBookManager :=
  let b0 := m.lighter_bbo
  let b1 := match bid with | some v => { b0 with bid := some v } | none => b0
  let b2 := match ask with | some v => { b1 with ask := some v } | none => b1
  let b3 := match bid_size with | some v => { b2 with bid_size := some v } | none => b2
  let b4 := match ask_size with | some v => { b3 with ask_size := some v } | none => b3
  { m with lighter_bbo := { b4 with timestamp := now }, lighter_ready := true }

/-- Python truthiness of an `Optional[Decimal]`: `None` and `Decimal('0')`
are falsy, every other value is truthy.  Used by `get_spread`'s
`if not all([...])` guard. -/
def py_truthy (x : Option ℚ) : Bool :=
  match x with
  | none => false
  | some v => if v = 0 then false else true

/-- `OrderBookManager.get_spread`: returns `(None, None)` unless all four
top-of-book values are truthy (present and nonzero); otherwise
`long_spread = lighter.bid - edgex.ask` and
`short_spread = edgex.bid - lighter.ask`. -/
def get_spread (m : OrderBookManager) : Option ℚ × Option ℚ :=
  if py_truthy m.edgex_bbo.bid && py_truthy m.edgex_bbo.ask &&
     py_truthy m.lighter_bbo.bid && py_truthy m.lighter_bbo.ask then
    match m.edgex_bbo.bid, m.edgex_bbo.ask, m.lighter_bbo.bid, m.lighter_bbo.ask with
    | some eb, some ea, some lb, some la => (some (lb - ea), some (eb - la))
    | _, _, _, _ => (none, none)
  else
    (none, none)

/-- A stored BBO is uncrossed when, with both sides present, `bid < ask`. -/
def bbo_uncrossed (b : BBO) : Bool :=
  match b.bid, b.ask with
  | some bid, some ask => bid < ask
  | _, _ => true

/-- `risk_manager.RiskConfig` (the fields exercised by the claims). -/
structure RiskConfig where
  max_position : ℚ := 1/100
  max_position_imbalance : ℚ := 5/1000
  max_daily_loss : ℚ := 100
  max_error_rate : ℚ := 1/10
  circuit_breaker_threshold : ℕ := 10
  circuit_breaker_window : ℚ := 60
  deriving Repr, DecidableEq

/-- Mutable state of `risk_manager.RiskManager`. -/
structure RiskManager where
  config : RiskConfig := {}
  daily_pnl : ℚ := 0
  trade_count : ℕ := 0
  error_count : ℕ := 0
  last_error_time : ℚ := 0
  error_history : List ℚ := []
  circuit_breaker_triggered : Bool := false
  circuit_breaker_time : ℚ := 0
  deriving Repr, DecidableEq

/-- Append to a bounded `collections.deque` of capacity `cap`: the oldest entries are
discarded from the front so at most `cap` remain. -/
def deque_append (cap : ℕ) (xs : List ℚ) (x : ℚ) : List ℚ :=
  let ys := xs ++ [x]
  if cap < ys.length then ys.drop (ys.length - cap) else ys

/-- Error timestamps inside the trailing circuit-breaker window, as counted
by `RiskManager._check_for_circuit_breaker`:
`sum(1 for t in error_history if t > now - window)`. -/
def recent_error_count (r : RiskManager) (now : ℚ) : ℕ :=
  (r.error_history.filter (fun t => now - r.config.circuit_breaker_window < t)).length

/-- `RiskManager._check_for_circuit_breaker`: if the windowed error count
reaches the threshold, set the flag and stamp the trigger time (the
emergency callback it also fires is an external effect, not state). -/
def check_for_circuit_breaker (r : RiskManager) (now : ℚ) : RiskManager :=
  if r.config.circuit_breaker_threshold ≤ recent_error_count r now then
    { r with circuit_breaker_triggered := true, circuit_breaker_time := now }
  else
    r

/-- `RiskManager.record_error`: bump the error counter, append the wall
timestamp to the bounded error ring (capacity 100), and test the breaker. -/
def record_error (r : RiskManager) (now : ℚ) : RiskManager :=
  let r1 := { r with
    error_count := r.error_count + 1,
    last_error_time := now,
    error_history := deque_append 100 r.error_history now }
  check_for_circuit_breaker r1 now

/-- `RiskManager.record_trade`: bump the trade counter and daily PnL; on
failure also append an error timestamp and test the breaker. -/
def record_trade (r : RiskManager) (success : Bool) (pnl : ℚ) (now : ℚ) : RiskManager :=
  let r1 := { r with
    trade_count := r.trade_count + 1,
    daily_pnl := r.daily_pnl + pnl }
  if success then r1
  else
    let r2 := { r1 with
      error_count := r1.error_count + 1,
      error_history := deque_append 100 r1.error_history now }
    check_for_circuit_breaker r2 now

/-- `RiskManager._check_circuit_breaker`: returns `true` (= reject) while
the breaker is active; auto-resets the flag once strictly more than 300
seconds have elapsed since the trigger. -/
def check_circuit_breaker (r : RiskManager) (now : ℚ) : Bool × RiskManager :=
  if r.circuit_breaker_triggered then
    if 300 < now - r.circuit_breaker_time then
      (false, { r with circuit_breaker_triggered := false })
    else
      (true, r)
  else
    (false, r)

/-- The signal fields read by the risk gate (`ArbitrageSignal.edgex_side`
and `.quantity`). -/
structure RiskSignal where
  edgex_side : String
  quantity : ℚ
  deriving Repr, DecidableEq

/-- The position-manager views used by the risk gate: the signed EdgeX
position and the signed Lighter position (their sum is the net position,
and `get_position_imbalance` is its absolute value). -/
structure Positions where
  edgex : ℚ
  lighter : ℚ
  deriving Repr, DecidableEq

/-- `RiskManager._check_position_limit`: the post-trade EdgeX position must
not exceed `max_position` on the traded side. -/
def check_position_limit (r : RiskManager) (sig : RiskSignal) (pos : Positions) : Bool :=
  if sig.edgex_side = "buy" then
    if r.config.max_position < pos.edgex + sig.quantity then false else true
  else
    if pos.edgex - sig.quantity < -r.config.max_position then false else true

/-- `RiskManager._check_position_imbalance`: `|net| ≤ max_position_imbalance`. -/
def check_position_imbalance (r : RiskManager) (pos : Positions) : Bool :=
  if r.config.max_position_imbalance < |pos.edgex + pos.lighter| then false else true

/-- `RiskManager._check_daily_loss_limit`: fail when `daily_pnl < -max_daily_loss`. -/
def check_daily_loss_limit (r : RiskManager) : Bool :=
  if r.daily_pnl < -r.config.max_daily_loss then false else true

/-- `RiskManager._check_error_rate`: with more than 10 trades, fail when
`error_count / trade_count > max_error_rate`. -/
def check_error_rate (r : RiskManager) : Bool :=
  if 10 < r.trade_count then
    if r.config.max_error_rate < (r.error_count : ℚ) / (r.trade_count : ℚ) then false else true
  else true

/-- `RiskManager.check_signal` with a position manager supplied: run the
five rules in order — circuit breaker, position limit, imbalance, daily
loss, error rate — and return `false` at the first failure.  Only the
breaker check mutates state (its auto-reset). -/
def check_signal (r : RiskManager) (sig : RiskSignal) (pos : Positions) (now : ℚ) :
    Bool × RiskManager :=
  let (cb, r1) := check_circuit_breaker r now
  if cb then (false, r1)
  else if check_position_limit r1 sig pos = false then (false, r1)
  else if check_position_imbalance r1 pos = false then (false, r1)
  else if check_daily_loss_limit r1 = false then (false, r1)
  else if check_error_rate r1 = false then (false, r1)
  else (true, r1)

/-- `arbitrage_engine.ArbitrageSignal` (the fields the claims exercise;
`direction` is the enum value string, `client_order_id` the generated id). -/
structure ArbitrageSignal where
  direction : String
  edgex_side : String
  lighter_side : String
  edgex_price : ℚ
  lighter_price : ℚ
  spread : ℚ
  quantity : ℚ
  timestamp : ℚ
  confidence : ℚ
  client_order_id : String
  deriving Repr, DecidableEq

/-- Mutable state of `arbitrage_engine.ArbitrageEngine`.  The two history
deques have capacity `min_samples * 2`. -/
structure ArbitrageEngine where
  order_quantity : ℚ := 1/1000
  max_position : ℚ := 1/100
  tick_size : ℚ := 1/10
  base_long_threshold : ℚ := 10
  base_short_threshold : ℚ := 10
  threshold_offset : ℚ := 10
  long_threshold : ℚ := 10
  short_threshold : ℚ := 10
  min_samples : ℕ := 100
  history_long : List ℚ := []
  history_short : List ℚ := []
  is_running : Bool := false
  is_sampling : Bool := true
  last_signal_time : ℚ := 0
  min_signal_interval : ℚ := 1
  signal_count : ℕ := 0
  sample_count : ℕ := 0
  deriving Repr, DecidableEq

/-- `ArbitrageEngine._update_thresholds`: once `min_samples` history entries
exist, set each threshold to the history mean plus `threshold_offset`.
Python's `sum(history) / len(history)` raises `ZeroDivisionError` on an
empty history, modelled as `.error` carrying the state at the raise. -/
def update_thresholds (e : ArbitrageEngine) : Except ArbitrageEngine ArbitrageEngine :=
  if e.min_samples ≤ e.history_long.length then
    if e.history_long.length = 0 ∨ e.history_short.length = 0 then
      .error e
    else
      .ok { e with
        long_threshold := e.history_long.sum / (e.history_long.length : ℚ) + e.threshold_offset,
        short_threshold := e.history_short.sum / (e.history_short.length : ℚ) + e.threshold_offset }
  else
    .ok e

/-- `ArbitrageEngine.sample_spread`: read the spreads from the book store;
when both are present append them to the bounded histories, bump the sample
counter, and — if still sampling and enough samples exist — leave the
sampling phase and compute the initial thresholds. -/
def sample_spread (e : ArbitrageEngine) (m : OrderBookManager) :
    Except ArbitrageEngine (ArbitrageEngine × (Option ℚ × Option ℚ)) :=
  let sp := get_spread m
  match sp with
  | (some l, some s) =>
    let e1 := { e with
      history_long := deque_append (e.min_samples * 2) e.history_long l,
      history_short := deque_append (e.min_samples * 2) e.history_short s,
      sample_count := e.sample_count + 1 }
    if e1.is_sampling ∧ e1.min_samples ≤ e1.history_long.length then
      match update_thresholds { e1 with is_sampling := false } with
      | .error e2 => .error e2
      | .ok e2 => .ok (e2, (some l, some s))
    else
      .ok (e1, (some l, some s))
  | _ => .ok (e, sp)

/-- `ArbitrageEngine.calculate_adaptive_threshold`: every full 50 ms of
estimated latency adds one tick to the base threshold
(`Decimal(latency_ms // 50) * tick_size`). -/
def calculate_adaptive_threshold (e : ArbitrageEngine) (base_threshold : ℚ)
    (latency_ms : ℕ) : ℚ :=
  base_threshold + (latency_ms / 50 : ℕ) * e.tick_size

/-- `ArbitrageEngine.check_arbitrage_opportunity`: the per-cycle decision.
Inputs beyond the engine state: the book store, the current EdgeX position
(`position_manager.get_edgex_position()`), the wall clock `now`
(`time.time()`) and the latency estimate.  Returns the updated engine and
the emitted signal, or `.error` when `_update_thresholds` raises. -/
def check_arbitrage_opportunity (e : ArbitrageEngine) (m : OrderBookManager)
    (current_position : ℚ) (now : ℚ) (latency_ms : ℕ) :
    Except ArbitrageEngine (ArbitrageEngine × Option ArbitrageSignal) :=
  if e.is_running = false then .ok (e, none) else
  match sample_spread e m with
  | .error e1 => .error e1
  | .ok (e1, (ls, ss)) =>
    match ls, ss with
    | some long_spread, some short_spread =>
      if e1.is_sampling then .ok (e1, none) else
      match (if e1.sample_count % 10 = 0 then update_thresholds e1 else .ok e1) with
      | .error e2 => .error e2
      | .ok e2 =>
        if now - e2.last_signal_time < e2.min_signal_interval then .ok (e2, none) else
        let adaptive_long := calculate_adaptive_threshold e2 e2.long_threshold latency_ms
        let adaptive_short := calculate_adaptive_threshold e2 e2.short_threshold latency_ms
        if adaptive_long < long_spread ∧ current_position < e2.max_position then
          match m.edgex_bbo.ask, m.lighter_bbo.bid with
          | some edgex_ask, some lighter_bid =>
            let sig : ArbitrageSignal := {
              direction := "long",
              edgex_side := "buy",
              lighter_side := "sell",
              edgex_price := edgex_ask - e2.tick_size,
              lighter_price := lighter_bid,
              spread := long_spread,
              quantity := e2.order_quantity,
              timestamp := now,
              confidence := min 1 ((long_spread - adaptive_long) / 10),
              client_order_id := "arb_long_" ++ toString (Int.floor (now * 1000)) }
            .ok ({ e2 with last_signal_time := now, signal_count := e2.signal_count + 1 },
                 some sig)
          | _, _ => .ok (e2, none)
        else if adaptive_short < short_spread ∧ -e2.max_position < current_position then
          match m.edgex_bbo.bid, m.lighter_bbo.ask with
          | some edgex_bid, some lighter_ask =>
            let sig : ArbitrageSignal := {
              direction := "short",
              edgex_side := "sell",
              lighter_side := "buy",
              edgex_price := edgex_bid + e2.tick_size,
              lighter_price := lighter_ask,
              spread := short_spread,
              quantity := e2.order_quantity,
              timestamp := now,
              confidence := min 1 ((short_spread - adaptive_short) / 10),
              client_order_id := "arb_short_" ++ toString (Int.floor (now * 1000)) }
            .ok ({ e2 with last_signal_time := now, signal_count := e2.signal_count + 1 },
                 some sig)
          | _, _ => .ok (e2, none)
        else
          .ok (e2, none)
    | _, _ => .ok (e1, none)

/-- One trading-loop invocation of `check_arbitrage_opportunity`: the book
store state, EdgeX position, wall clock and latency estimate at that call. -/
structure CheckCall where
  m : OrderBookManager
  pos : ℚ
  now : ℚ
  latency_ms : ℕ
  deriving Repr

/-- Run a sequence of `check_arbitrage_opportunity` calls, threading the
engine state (a raised `ZeroDivisionError` keeps the mutations committed
before the raise, as the trading loop catches it and continues) and
collecting the emitted signals in order. -/
def run_checks (e : ArbitrageEngine) : List CheckCall → ArbitrageEngine × List ArbitrageSignal
  | [] => (e, [])
  | c :: cs =>
    match check_arbitrage_opportunity e c.m c.pos c.now c.latency_ms with
    | .error e1 => run_checks e1 cs
    | .ok (e1, none) => run_checks e1 cs
    | .ok (e1, some sig) =>
      let (ef, sigs) := run_checks e1 cs
      (ef, sig :: sigs)

/-- Outcome of `ArbitrageSystem._execute_lighter_hedge`.  `result_success`
and `result_error` are the returned `{'success': ..., 'error': ...}` dict;
`order_placed` records whether `lighter_client.place_market_order` was
invoked, and `record_error_hedge_failed` whether
`risk_manager.record_error('hedge_failed')` was called. -/
structure HedgeOutcome where
  result_success : Bool
  result_error : Option String
  hedge_side : Option String
  hedge_price : Option ℚ
  order_placed : Bool
  record_error_hedge_failed : Bool
  deriving Repr, DecidableEq

/-- `ArbitrageSystem._execute_lighter_hedge`: hedge an EdgeX fill on
Lighter.  `lighter_bid`/`lighter_ask` are `lighter_client.get_bbo()`;
the result of the eventual `place_market_order` call is an external input,
supplied as `place_ok`/`place_err`.  A missing required side returns the
failure dict immediately — before the branch that records
`hedge_failed` — so no risk error is recorded on that path. -/
def execute_lighter_hedge (lighter_bid lighter_ask : Option ℚ)
    (edgex_side : String) (place_ok : Bool) (place_err : String) : HedgeOutcome :=
  if edgex_side = "buy" then
    match lighter_bid with
    | none =>
      { result_success := false, result_error := some "No bid price",
        hedge_side := none, hedge_price := none,
        order_placed := false, record_error_hedge_failed := false }
    | some bid =>
      { result_success := place_ok,
        result_error := if place_ok then none else some place_err,
        hedge_side := some "sell", hedge_price := some (bid * (995/1000)),
        order_placed := true, record_error_hedge_failed := !place_ok }
  else
    match lighter_ask with
    | none =>
      { result_success := false, result_error := some "No ask price",
        hedge_side := none, hedge_price := none,
        order_placed := false, record_error_hedge_failed := false }
    | some ask =>
      { result_success := place_ok,
        result_error := if place_ok then none else some place_err,
        hedge_side := some "buy", hedge_price := some (ask * (1005/1000)),
        order_placed := true, record_error_hedge_failed := !place_ok }

/-- One entry of `ArbitrageSystem.pending_orders` (keyed by client order id). -/
structure PendingOrder where
  signal : ArbitrageSignal
  status : String
  edgex_order_id : Option String := none
  place_latency : ℕ := 0
  deriving Repr, DecidableEq

/-- The `order_update` payload forwarded from the front end. -/
structure OrderUpdateData where
  clientOrderId : String
  status : String
  filledSize : ℚ
  side : String
  price : ℚ
  deriving Repr, DecidableEq

/-- Observable outcome of `ArbitrageSystem._on_order_update`: the new
pending-orders map and EdgeX position, the hedge outcome when a hedge was
attempted, the list of `risk.record_trade` success arguments, and whether
the per-trade data log and Telegram notification fired. -/
structure OrderUpdateResult where
  pending_orders : List (String × PendingOrder)
  edgex_position : ℚ
  hedge : Option HedgeOutcome
  record_trade_calls : List Bool
  trade_logged : Bool
  trade_log_status : Option String
  telegram_notified : Bool
  deriving Repr, DecidableEq

/-- `ArbitrageSystem._on_order_update`: on `FILLED`, update the EdgeX
position by the signed filled size, run exactly one Lighter hedge, log the
trade and notify only when a pending entry (hence its signal) exists,
record the trade with `success=True`, and delete the pending entry.  On
`CANCELED`, just delete the pending entry.  Other statuses are ignored. -/
def on_order_update (pending : List (String × PendingOrder)) (edgex_position : ℚ)
    (lighter_bid lighter_ask : Option ℚ) (place_ok : Bool) (place_err : String)
    (data : OrderUpdateData) : OrderUpdateResult :=
  if data.status = "FILLED" then
    let signal := (pending.lookup data.clientOrderId).map (·.signal)
    let filled_qty := data.filledSize
    let delta := if data.side = "buy" then filled_qty else -filled_qty
    let pos1 := edgex_position + delta
    let hedge_result := execute_lighter_hedge lighter_bid lighter_ask data.side place_ok place_err
    let has_signal := signal.isSome
    { pending_orders := pending.filter (fun kv => kv.1 ≠ data.clientOrderId),
      edgex_position := pos1,
      hedge := some hedge_result,
      record_trade_calls := [true],
      trade_logged := has_signal,
      trade_log_status :=
        if has_signal then some (if hedge_result.result_success then "success" else "partial")
        else none,
      telegram_notified := has_signal }
  else if data.status = "CANCELED" then
    { pending_orders := pending.filter (fun kv => kv.1 ≠ data.clientOrderId),
      edgex_position := edgex_position,
      hedge := none,
      record_trade_calls := [],
      trade_logged := false,
      trade_log_status := none,
      telegram_notified := false }
  else
    { pending_orders := pending,
      edgex_position := edgex_position,
      hedge := none,
      record_trade_calls := [],
      trade_logged := false,
      trade_log_status := none,
      telegram_notified := false }

/-- The risk state reached from a fresh `RiskManager` (default config:
threshold 10, window 60 s) after ten `record_error` calls at time 0. -/
def risk_after_ten_errors : RiskManager :=
  (List.replicate 10 (0 : ℚ)).foldl (fun r t => record_error r t) {}

/-- A concrete signal, as produced by the engine for scenario traces. -/
def sample_signal : ArbitrageSignal :=
  { direction := "long", edgex_side := "buy", lighter_side := "sell",
    edgex_price := 100, lighter_price := 1102/10, spread := 1101/10,
    quantity := 1/1000, timestamp := 0, confidence := 1,
    client_order_id := "arb_long_0" }

/-- A book store in which both venues quote both sides (scenario prices:
EdgeX (100, 100.1), Lighter (110.2, 110.3)). -/
def books_ready : OrderBookManager :=
  { edgex_bbo := { bid := some 100, ask := some (1001/10) },
    lighter_bbo := { bid := some (1102/10), ask := some (1103/10) },
    edgex_ready := true, lighter_ready := true }

/-- An engine past its sampling phase (`min_samples = 1`, one sample in
each history, thresholds initialized, started, and
`min_signal_interval = 1`). -/
def engine_ready : ArbitrageEngine :=
  { min_samples := 1, is_running := true, is_sampling := false,
    long_threshold := 99/10, short_threshold := 97/10,
    history_long := [-1/10], history_short := [-3/10],
    sample_count := 1, last_signal_time := -10, min_signal_interval := 1 }

/-- An engine freshly constructed with `min_samples = 0` — so both history
deques get capacity `0 * 2 = 0` — after `start()`. -/
def engine_min_samples_zero : ArbitrageEngine :=
  { min_samples := 0, is_running := true }

end Arb

namespace Arb

example : (update_edgex_bbo {} (some 10) (some 5) none none 0).edgex_bbo.bid = some 10 := by
  norm_num [update_edgex_bbo]
example : get_spread (update_edgex_bbo (update_lighter_bbo {} (some 3) (some 4) none none 0) (some 1) (some 2) none none 0) = (some 1, some (-3)) := by
  norm_num [get_spread, update_edgex_bbo, update_lighter_bbo, py_truthy]
example : get_spread (update_edgex_bbo (update_lighter_bbo {} (some 0) (some 4) none none 0) (some 1) (some 2) none none 0) = (none, none) := by
  norm_num [get_spread, update_edgex_bbo, update_lighter_bbo, py_truthy]

/-- C2 counterexample: a crossed quote (bid 10, ask 5) fed to
`update_edgex_bbo` (and likewise `update_lighter_bbo`) is not rejected:
the store changes, both crossed sides are stored verbatim, and the stored
top-of-book violates `bid < ask`. -/
theorem c2_crossed_quote_not_rejected :
    (update_edgex_bbo {} (some 10) (some 5) none none 0 ≠ ({} : OrderBookManager)) ∧
    (update_edgex_bbo {} (some 10) (some 5) none none 0).edgex_bbo.bid = some 10 ∧
    (update_edgex_bbo {} (some 10) (some 5) none none 0).edgex_bbo.ask = some 5 ∧
    bbo_uncrossed (update_edgex_bbo {} (some 10) (some 5) none none 0).edgex_bbo = false ∧
    (update_lighter_bbo {} (some 10) (some 5) none none 0).lighter_bbo.bid = some 10 ∧
    (update_lighter_bbo {} (some 10) (some 5) none none 0).lighter_bbo.ask = some 5 := by
  refine ⟨?_, ?_, ?_, ?_, ?_, ?_⟩ <;>
    norm_num [update_edgex_bbo, update_lighter_bbo, bbo_uncrossed, OrderBookManager.mk.injEq]

/-- C2 amended: the book store performs no `bid < ask` validation — every
quote update overwrites the provided sides unconditionally, crossed or
not. -/
theorem c2_bbo_update_stores_unconditionally (m : OrderBookManager) (b a : ℚ)
    (bsz asz : Option ℚ) (t : ℚ) :
    (update_edgex_bbo m (some b) (some a) bsz asz t).edgex_bbo.bid = some b ∧
    (update_edgex_bbo m (some b) (some a) bsz asz t).edgex_bbo.ask = some a ∧
    (update_lighter_bbo m (some b) (some a) bsz asz t).lighter_bbo.bid = some b ∧
    (update_lighter_bbo m (some b) (some a) bsz asz t).lighter_bbo.ask = some a := by
  cases bsz <;> cases asz <;>
    simp [update_edgex_bbo, update_lighter_bbo]

/-- C9: whenever any stored best bid or best ask equals zero, the two
derived spreads are `(none, none)` — Python truthiness makes
`Decimal('0')` indistinguishable from a missing side in `get_spread` —
even when all four sides are populated. -/
theorem c9_zero_price_means_no_spread (m : OrderBookManager)
    (h : m.edgex_bbo.bid = some 0 ∨ m.edgex_bbo.ask = some 0 ∨
         m.lighter_bbo.bid = some 0 ∨ m.lighter_bbo.ask = some 0) :
    get_spread m = (none, none) := by
  rcases h with h | h | h | h <;>
    simp [get_spread, py_truthy, h]

/-- C9 witness: a book where both venues quote both sides but EdgeX's bid
is zero yields no spreads. -/
theorem c9_zero_price_means_no_spread_witness :
    ({ edgex_bbo := { bid := some 0, ask := some 2 },
       lighter_bbo := { bid := some 3, ask := some 4 } } : OrderBookManager).edgex_bbo.bid
      = some 0 ∧
    get_spread { edgex_bbo := { bid := some 0, ask := some 2 },
                 lighter_bbo := { bid := some 3, ask := some 4 } } = (none, none) :=
  ⟨rfl, c9_zero_price_means_no_spread _ (Or.inl rfl)⟩

/-- C8: the latency-adjusted threshold is
`base + floor(latency_ms / 50) * tick_size`; it is the base at 0 ms, the
base plus one tick at 50 ms, and is monotone non-decreasing in the latency
whenever the tick size is non-negative. -/
theorem c8_adaptive_threshold_spec (e : ArbitrageEngine) (base : ℚ) (l1 l2 : ℕ)
    (ht : 0 ≤ e.tick_size) (hl : l1 ≤ l2) :
    calculate_adaptive_threshold e base l1
      = base + (Nat.floor ((l1 : ℚ) / 50) : ℚ) * e.tick_size ∧
    calculate_adaptive_threshold e base 0 = base ∧
    calculate_adaptive_threshold e base 50 = base + e.tick_size ∧
    calculate_adaptive_threshold e base l1 ≤ calculate_adaptive_threshold e base l2 := by
  refine ⟨?_, ?_, ?_, ?_⟩
  · have hfl : Nat.floor ((l1 : ℚ) / 50) = l1 / 50 := by
      have := Nat.floor_div_nat ((l1 : ℚ)) 50
      simpa using this
    rw [calculate_adaptive_threshold, hfl]
  · simp [calculate_adaptive_threshold]
  · norm_num [calculate_adaptive_threshold]
  · unfold calculate_adaptive_threshold
    have hdiv : l1 / 50 ≤ l2 / 50 := Nat.div_le_div_right hl
    have hcast : ((l1 / 50 : ℕ) : ℚ) ≤ ((l2 / 50 : ℕ) : ℚ) := by exact_mod_cast hdiv
    have := mul_le_mul_of_nonneg_right hcast ht
    linarith

/-- C8 witness: instantiation at the default tick size `0.1`, base `9.9`,
latencies 0 ms and 500 ms. -/
theorem c8_adaptive_threshold_spec_witness :
    (0 : ℚ) ≤ ({} : ArbitrageEngine).tick_size ∧ (0 : ℕ) ≤ 500 ∧
    (calculate_adaptive_threshold {} (99/10) 0
       = 99/10 + (Nat.floor ((0 : ℚ) / 50) : ℚ) * ({} : ArbitrageEngine).tick_size ∧
     calculate_adaptive_threshold {} (99/10) 0 = 99/10 ∧
     calculate_adaptive_threshold {} (99/10) 50 = 99/10 + ({} : ArbitrageEngine).tick_size ∧
     calculate_adaptive_threshold {} (99/10) 0 ≤ calculate_adaptive_threshold {} (99/10) 500) :=
  ⟨by norm_num, by decide, c8_adaptive_threshold_spec {} (99/10) 0 500 (by norm_num) (by decide)⟩

/-- C3 counterexample: with the required Lighter side missing, the hedge
returns the failure dict with `'No bid price'` / `'No ask price'` but
`risk.record_error('hedge_failed')` is NOT invoked — the early return in
`_execute_lighter_hedge` precedes the failure branch that records the
error. -/
theorem c3_missing_top_skips_record_error :
    execute_lighter_hedge none (some 50) "buy" true "e"
      = { result_success := false, result_error := some "No bid price",
          hedge_side := none, hedge_price := none,
          order_placed := false, record_error_hedge_failed := false } ∧
    execute_lighter_hedge (some 50) none "sell" true "e"
      = { result_success := false, result_error := some "No ask price",
          hedge_side := none, hedge_price := none,
          order_placed := false, record_error_hedge_failed := false } := by
  constructor <;> rfl

/-- C3 amended: a hedge whose required Lighter side is missing fails with
`'No bid price'` / `'No ask price'` without placing an order and without
recording a risk error; `record_error('hedge_failed')` fires exactly when
an order was placed and the placement failed. -/
theorem c3_hedge_failure_modes (lighter_bid lighter_ask : Option ℚ)
    (edgex_side : String) (place_ok : Bool) (place_err : String) :
    (edgex_side = "buy" → lighter_bid = none →
      execute_lighter_hedge lighter_bid lighter_ask edgex_side place_ok place_err
        = { result_success := false, result_error := some "No bid price",
            hedge_side := none, hedge_price := none,
            order_placed := false, record_error_hedge_failed := false }) ∧
    (edgex_side ≠ "buy" → lighter_ask = none →
      execute_lighter_hedge lighter_bid lighter_ask edgex_side place_ok place_err
        = { result_success := false, result_error := some "No ask price",
            hedge_side := none, hedge_price := none,
            order_placed := false, record_error_hedge_failed := false }) ∧
    (execute_lighter_hedge lighter_bid lighter_ask edgex_side place_ok place_err).record_error_hedge_failed
      = ((execute_lighter_hedge lighter_bid lighter_ask edgex_side place_ok place_err).order_placed
          && !(execute_lighter_hedge lighter_bid lighter_ask edgex_side place_ok place_err).result_success) := by
  refine ⟨?_, ?_, ?_⟩
  · intro hs hb
    subst hs hb
    rfl
  · intro hs ha
    subst ha
    simp [execute_lighter_hedge, hs]
  · by_cases hs : edgex_side = "buy" <;>
      cases lighter_bid <;> cases lighter_ask <;> cases place_ok <;>
        simp [execute_lighter_hedge, hs]

/-- C3 witness: the amended theorem applied at a `buy`-side fill with no
Lighter bid. -/
theorem c3_hedge_failure_modes_witness :
    ("buy" : String) = "buy" ∧ (none : Option ℚ) = none ∧
    execute_lighter_hedge none (some 7) "buy" false "boom"
      = { result_success := false, result_error := some "No bid price",
          hedge_side := none, hedge_price := none,
          order_placed := false, record_error_hedge_failed := false } :=
  ⟨rfl, rfl, (c3_hedge_failure_modes none (some 7) "buy" false "boom").1 rfl rfl⟩

/-- `_check_circuit_breaker` rejects exactly while the flag is set and at
most 300 s have elapsed, and its returned state carries that same flag. -/
lemma check_circuit_breaker_fst (r : RiskManager) (now : ℚ) :
    (check_circuit_breaker r now).1
      = (r.circuit_breaker_triggered && decide (now - r.circuit_breaker_time ≤ 300)) := by
  unfold check_circuit_breaker
  by_cases h1 : r.circuit_breaker_triggered <;>
    by_cases h2 : 300 < now - r.circuit_breaker_time <;>
      simp [h1, h2, le_of_not_lt] <;> linarith

lemma check_circuit_breaker_snd_triggered (r : RiskManager) (now : ℚ) :
    (check_circuit_breaker r now).2.circuit_breaker_triggered
      = (r.circuit_breaker_triggered && decide (now - r.circuit_breaker_time ≤ 300)) := by
  unfold check_circuit_breaker
  by_cases h1 : r.circuit_breaker_triggered <;>
    by_cases h2 : 300 < now - r.circuit_breaker_time <;>
      simp [h1, h2, le_of_not_lt] <;> linarith

/-- The breaker check mutates nothing but the breaker flag. -/
lemma check_circuit_breaker_snd_fields (r : RiskManager) (now : ℚ) :
    (check_circuit_breaker r now).2.config = r.config ∧
    (check_circuit_breaker r now).2.daily_pnl = r.daily_pnl ∧
    (check_circuit_breaker r now).2.trade_count = r.trade_count ∧
    (check_circuit_breaker r now).2.error_count = r.error_count ∧
    (check_circuit_breaker r now).2.error_history = r.error_history ∧
    (check_circuit_breaker r now).2.circuit_breaker_time = r.circuit_breaker_time := by
  unfold check_circuit_breaker
  by_cases h1 : r.circuit_breaker_triggered <;>
    by_cases h2 : 300 < now - r.circuit_breaker_time <;>
      simp [h1, h2]

lemma check_position_limit_congr {r1 r2 : RiskManager} (h : r1.config = r2.config)
    (sig : RiskSignal) (pos : Positions) :
    check_position_limit r1 sig pos = check_position_limit r2 sig pos := by
  simp [check_position_limit, h]

lemma check_position_imbalance_congr {r1 r2 : RiskManager} (h : r1.config = r2.config)
    (pos : Positions) :
    check_position_imbalance r1 pos = check_position_imbalance r2 pos := by
  simp [check_position_imbalance, h]

lemma check_daily_loss_limit_congr {r1 r2 : RiskManager} (hc : r1.config = r2.config)
    (hp : r1.daily_pnl = r2.daily_pnl) :
    check_daily_loss_limit r1 = check_daily_loss_limit r2 := by
  simp [check_daily_loss_limit, hc, hp]

lemma check_error_rate_congr {r1 r2 : RiskManager} (hc : r1.config = r2.config)
    (ht : r1.trade_count = r2.trade_count) (he : r1.error_count = r2.error_count) :
    check_error_rate r1 = check_error_rate r2 := by
  simp [check_error_rate, hc, ht, he]

/-- C5: the risk gate admits a signal exactly when all five rules pass —
circuit breaker, post-trade position limit, imbalance, daily loss, error
rate, evaluated in that short-circuit order (the ordered `&&` chain) — and
the only state change is the breaker check's auto-reset. -/
theorem c5_check_signal_is_five_rules (r : RiskManager) (sig : RiskSignal)
    (pos : Positions) (now : ℚ) :
    (check_signal r sig pos now).1
      = (!(check_circuit_breaker r now).1 && check_position_limit r sig pos
          && check_position_imbalance r pos && check_daily_loss_limit r
          && check_error_rate r) ∧
    ((check_signal r sig pos now).1 = true ↔
      ((check_circuit_breaker r now).1 = false ∧ check_position_limit r sig pos = true ∧
       check_position_imbalance r pos = true ∧ check_daily_loss_limit r = true ∧
       check_error_rate r = true)) ∧
    (check_signal r sig pos now).2 = (check_circuit_breaker r now).2 := by
  obtain ⟨hcfg, hpnl, htc, hec, -, -⟩ := check_circuit_breaker_snd_fields r now
  have hpl := check_position_limit_congr hcfg sig pos
  have hpi := check_position_imbalance_congr hcfg pos
  have hdl := check_daily_loss_limit_congr hcfg hpnl
  have her := check_error_rate_congr hcfg htc hec
  have hmain : (check_signal r sig pos now).1
      = (!(check_circuit_breaker r now).1 && check_position_limit r sig pos
          && check_position_imbalance r pos && check_daily_loss_limit r
          && check_error_rate r) ∧
      (check_signal r sig pos now).2 = (check_circuit_breaker r now).2 := by
    unfold check_signal
    rcases hcb : check_circuit_breaker r now with ⟨cb, r1⟩
    rw [hcb] at hpl hpi hdl her
    cases cb <;>
      simp only [hpl, hpi, hdl, her] <;>
      cases hb1 : check_position_limit r sig pos <;>
        cases hb2 : check_position_imbalance r pos <;>
          cases hb3 : check_daily_loss_limit r <;>
            cases hb4 : check_error_rate r <;>
              simp
  refine ⟨hmain.1, ?_, hmain.2⟩
  rw [hmain.1]
  cases hb0 : (check_circuit_breaker r now).1 <;>
    cases hb1 : check_position_limit r sig pos <;>
      cases hb2 : check_position_imbalance r pos <;>
        cases hb3 : check_daily_loss_limit r <;>
          cases hb4 : check_error_rate r <;>
            simp

/-- C4 counterexample: 40 seconds after the ten errors age out of the 60 s
window (at `now = 100`), the breaker flag is still set although zero error
events lie in the trailing window and fewer than 300 s have elapsed — so
`circuit_breaker_triggered` is NOT equivalent to "at least threshold
errors in the trailing window and under 300 s since trigger". -/
theorem c4_flag_outlives_window :
    risk_after_ten_errors.circuit_breaker_triggered = true ∧
    risk_after_ten_errors.config.circuit_breaker_threshold = 10 ∧
    recent_error_count risk_after_ten_errors 100 = 0 ∧
    (100 : ℚ) - risk_after_ten_errors.circuit_breaker_time < 300 := by
  have hst : risk_after_ten_errors
      = { config := {}, daily_pnl := 0, trade_count := 0, error_count := 10,
          last_error_time := 0,
          error_history := List.replicate 10 (0 : ℚ),
          circuit_breaker_triggered := true, circuit_breaker_time := 0 } := by
    norm_num [risk_after_ten_errors, record_error, check_for_circuit_breaker,
      recent_error_count, deque_append, List.replicate, List.filter]
  refine ⟨by rw [hst], by rw [hst], ?_, by rw [hst]; norm_num⟩
  rw [hst]
  norm_num [recent_error_count, List.replicate, List.filter]

/-- C4 amended: `_check_for_circuit_breaker` (run inside `record_error`)
sets the flag exactly when, at that moment, at least
`circuit_breaker_threshold` error timestamps lie within the trailing
window; the flag then persists — regardless of the current window contents
— until an admission-path `_check_circuit_breaker` runs strictly more than
300 s after the trigger, which resets it. -/
theorem c4_breaker_lifecycle (r : RiskManager) (now : ℚ) :
    ((check_circuit_breaker r now).1
      = (r.circuit_breaker_triggered && decide (now - r.circuit_breaker_time ≤ 300))) ∧
    ((check_circuit_breaker r now).2.circuit_breaker_triggered
      = (r.circuit_breaker_triggered && decide (now - r.circuit_breaker_time ≤ 300))) ∧
    ((record_error r now).circuit_breaker_triggered
      = (r.circuit_breaker_triggered
          || decide (r.config.circuit_breaker_threshold ≤
               recent_error_count { r with error_history := deque_append 100 r.error_history now } now))) := by
  refine ⟨check_circuit_breaker_fst r now, check_circuit_breaker_snd_triggered r now, ?_⟩
  unfold record_error check_for_circuit_breaker
  by_cases h : r.config.circuit_breaker_threshold ≤
      recent_error_count { r with error_history := deque_append 100 r.error_history now } now
  · simp only [recent_error_count] at h ⊢
    simp [h]
  · simp only [recent_error_count] at h ⊢
    simp [h]

/-- Deleting a key from an association list makes later lookups miss. -/
lemma lookup_after_erase (l : List (String × PendingOrder)) (k : String) :
    (l.filter (fun kv => kv.1 ≠ k)).lookup k = none := by
  induction l with
  | nil => rfl
  | cons hd tl ih =>
    by_cases h : hd.1 = k
    · rw [List.filter_cons_of_neg (by simp [h])]
      exact ih
    · rw [List.filter_cons_of_pos (by simp [h])]
      have hba : (k == hd.1) = false := by
        simp only [beq_eq_false_iff_ne, ne_eq]
        exact fun e => h e.symm
      simpa [List.lookup, hba] using ih

/-- C1 counterexample: an EdgeX `FILLED` update whose Lighter hedge fails
(no Lighter bid) still records the trade with `success = True` — the
success argument is hard-coded, not `hedge_ok` — while the hedge outcome is
a failure; the pending entry is deleted as claimed. -/
theorem c1_record_trade_success_hardcoded :
    (on_order_update [("arb_long_0", { signal := sample_signal, status := "placed" })] 0
        none (some 50) false "err"
        { clientOrderId := "arb_long_0", status := "FILLED", filledSize := 1/1000,
          side := "buy", price := 100 }).record_trade_calls = [true] ∧
    ((on_order_update [("arb_long_0", { signal := sample_signal, status := "placed" })] 0
        none (some 50) false "err"
        { clientOrderId := "arb_long_0", status := "FILLED", filledSize := 1/1000,
          side := "buy", price := 100 }).hedge.map (·.result_success)) = some false ∧
    ((on_order_update [("arb_long_0", { signal := sample_signal, status := "placed" })] 0
        none (some 50) false "err"
        { clientOrderId := "arb_long_0", status := "FILLED", filledSize := 1/1000,
          side := "buy", price := 100 }).pending_orders.lookup "arb_long_0") = none := by
  refine ⟨?_, ?_, ?_⟩ <;>
    norm_num [on_order_update, execute_lighter_hedge, List.lookup, List.filter]

/-- C1 amended: on every `FILLED` order update the coordinator calls
`risk.record_trade` exactly once with `success = True` — regardless of
whether the Lighter hedge succeeded — and deletes the pending entry for
that client order id. -/
theorem c1_filled_records_one_trade (pending : List (String × PendingOrder))
    (edgex_position : ℚ) (lighter_bid lighter_ask : Option ℚ)
    (place_ok : Bool) (place_err : String) (data : OrderUpdateData)
    (h : data.status = "FILLED") :
    (on_order_update pending edgex_position lighter_bid lighter_ask place_ok place_err
        data).record_trade_calls = [true] ∧
    (on_order_update pending edgex_position lighter_bid lighter_ask place_ok place_err
        data).pending_orders.lookup data.clientOrderId = none := by
  constructor
  · simp [on_order_update, h]
  · simp only [on_order_update, h, if_pos]
    exact lookup_after_erase pending data.clientOrderId

/-- C1 witness: the amended theorem applied to a concrete `FILLED` update. -/
theorem c1_filled_records_one_trade_witness :
    ({ clientOrderId := "arb_long_0", status := "FILLED", filledSize := 1/1000,
       side := "buy", price := 100 } : OrderUpdateData).status = "FILLED" ∧
    ((on_order_update [("arb_long_0", { signal := sample_signal, status := "placed" })] 0
        (some (1102/10)) (some (1103/10)) true ""
        { clientOrderId := "arb_long_0", status := "FILLED", filledSize := 1/1000,
          side := "buy", price := 100 }).record_trade_calls = [true] ∧
     (on_order_update [("arb_long_0", { signal := sample_signal, status := "placed" })] 0
        (some (1102/10)) (some (1103/10)) true ""
        { clientOrderId := "arb_long_0", status := "FILLED", filledSize := 1/1000,
          side := "buy", price := 100 }).pending_orders.lookup "arb_long_0" = none) :=
  ⟨rfl, c1_filled_records_one_trade _ _ _ _ _ _ _ rfl⟩

/-- C10: a `FILLED` update whose client order id is unknown to the
pending-orders map still updates the EdgeX position by the signed filled
size, still runs exactly one Lighter hedge, and still records a trade; the
missing entry only suppresses the per-trade data log and the Telegram
notification. -/
theorem c10_unknown_fill_still_hedges (pending : List (String × PendingOrder))
    (edgex_position : ℚ) (lighter_bid lighter_ask : Option ℚ)
    (place_ok : Bool) (place_err : String) (data : OrderUpdateData)
    (hf : data.status = "FILLED")
    (hmiss : pending.lookup data.clientOrderId = none) :
    (on_order_update pending edgex_position lighter_bid lighter_ask place_ok place_err
        data).edgex_position
      = edgex_position + (if data.side = "buy" then data.filledSize else -data.filledSize) ∧
    (on_order_update pending edgex_position lighter_bid lighter_ask place_ok place_err
        data).hedge
      = some (execute_lighter_hedge lighter_bid lighter_ask data.side place_ok place_err) ∧
    (on_order_update pending edgex_position lighter_bid lighter_ask place_ok place_err
        data).record_trade_calls = [true] ∧
    (on_order_update pending edgex_position lighter_bid lighter_ask place_ok place_err
        data).trade_logged = false ∧
    (on_order_update pending edgex_position lighter_bid lighter_ask place_ok place_err
        data).telegram_notified = false := by
  refine ⟨?_, ?_, ?_, ?_, ?_⟩ <;>
    simp [on_order_update, hf, hmiss]

/-- C10 witness: a `FILLED` sell update for an id absent from the
pending-orders map. -/
theorem c10_unknown_fill_still_hedges_witness :
    ({ clientOrderId := "arb_short_7", status := "FILLED", filledSize := 2/1000,
       side := "sell", price := 100 } : OrderUpdateData).status = "FILLED" ∧
    ([] : List (String × PendingOrder)).lookup "arb_short_7" = none ∧
    ((on_order_update [] 0 (some (1102/10)) (some (1103/10)) true ""
        { clientOrderId := "arb_short_7", status := "FILLED", filledSize := 2/1000,
          side := "sell", price := 100 }).edgex_position
       = 0 + (if ("sell" : String) = "buy" then (2/1000 : ℚ) else -(2/1000 : ℚ)) ∧
     (on_order_update [] 0 (some (1102/10)) (some (1103/10)) true ""
        { clientOrderId := "arb_short_7", status := "FILLED", filledSize := 2/1000,
          side := "sell", price := 100 }).hedge
       = some (execute_lighter_hedge (some (1102/10)) (some (1103/10)) "sell" true "") ∧
     (on_order_update [] 0 (some (1102/10)) (some (1103/10)) true ""
        { clientOrderId := "arb_short_7", status := "FILLED", filledSize := 2/1000,
          side := "sell", price := 100 }).record_trade_calls = [true] ∧
     (on_order_update [] 0 (some (1102/10)) (some (1103/10)) true ""
        { clientOrderId := "arb_short_7", status := "FILLED", filledSize := 2/1000,
          side := "sell", price := 100 }).trade_logged = false ∧
     (on_order_update [] 0 (some (1102/10)) (some (1103/10)) true ""
        { clientOrderId := "arb_short_7", status := "FILLED", filledSize := 2/1000,
          side := "sell", price := 100 }).telegram_notified = false) :=
  ⟨rfl, rfl, c10_unknown_fill_still_hedges _ _ _ _ _ _ _ rfl rfl⟩

lemma update_thresholds_error_eq {e e' : ArbitrageEngine}
    (h : update_thresholds e = .error e') : e' = e := by
  unfold update_thresholds at h
  split at h
  · split at h
    · cases h; rfl
    · cases h
  · cases h

lemma update_thresholds_ok_fields {e e' : ArbitrageEngine}
    (h : update_thresholds e = .ok e') :
    e'.last_signal_time = e.last_signal_time ∧
    e'.min_signal_interval = e.min_signal_interval ∧
    e'.max_position = e.max_position ∧
    e'.is_sampling = e.is_sampling := by
  unfold update_thresholds at h
  split at h
  · split at h
    · cases h
    · cases h; simp
  · cases h; simp

lemma sample_spread_error_fields {e : ArbitrageEngine} {m : OrderBookManager}
    {e1 : ArbitrageEngine} (h : sample_spread e m = .error e1) :
    e1.last_signal_time = e.last_signal_time ∧
    e1.min_signal_interval = e.min_signal_interval := by
  simp only [sample_spread] at h
  split at h
  · split at h
    · split at h
      · rename_i heq
        cases h
        have := update_thresholds_error_eq heq
        subst this
        simp
      · cases h
    · cases h
  · cases h

lemma sample_spread_ok_fields {e : ArbitrageEngine} {m : OrderBookManager}
    {e1 : ArbitrageEngine} {out : Option ℚ × Option ℚ}
    (h : sample_spread e m = .ok (e1, out)) :
    e1.last_signal_time = e.last_signal_time ∧
    e1.min_signal_interval = e.min_signal_interval := by
  simp only [sample_spread] at h
  split at h
  · split at h
    · split at h
      · cases h
      · rename_i heq
        cases h
        have hf := update_thresholds_ok_fields heq
        constructor
        · rw [hf.1]
        · rw [hf.2.1]
    · cases h
      constructor <;> simp
  · cases h
    constructor <;> rfl



lemma check_error_fields {e : ArbitrageEngine} {m : OrderBookManager} {pos now : ℚ}
    {lat : ℕ} {e1 : ArbitrageEngine}
    (h : check_arbitrage_opportunity e m pos now lat = .error e1) :
    e1.last_signal_time = e.last_signal_time ∧
    e1.min_signal_interval = e.min_signal_interval := by
  simp only [check_arbitrage_opportunity] at h
  split at h
  · cases h
  · split at h
    · rename_i heq
      cases h
      exact sample_spread_error_fields heq
    · rename_i ex hsamp
      split at h
      · split at h
        · cases h
        · split at h
          · rename_i hthr
            cases h
            split at hthr
            · have h1 := sample_spread_ok_fields hsamp
              have h2 := update_thresholds_error_eq hthr
              subst h2
              exact h1
            · cases hthr
          · rename_i e2 hthr
            split at h
            · cases h
            · split at h
              · split at h
                · cases h
                · cases h
              · split at h
                · split at h
                  · cases h
                  · cases h
                · cases h
      · cases h



lemma check_ok_none_fields {e : ArbitrageEngine} {m : OrderBookManager} {pos now : ℚ}
    {lat : ℕ} {e1 : ArbitrageEngine}
    (h : check_arbitrage_opportunity e m pos now lat = .ok (e1, none)) :
    e1.last_signal_time = e.last_signal_time ∧
    e1.min_signal_interval = e.min_signal_interval := by
  simp only [check_arbitrage_opportunity] at h
  split at h
  · cases h
    constructor <;> rfl
  · split at h
    · cases h
    · rename_i ex hsamp
      split at h
      · split at h
        · cases h
          exact sample_spread_ok_fields hsamp
        · split at h
          · cases h
          · rename_i e2 hthr
            have hfe2 : e2.last_signal_time = e.last_signal_time ∧
                e2.min_signal_interval = e.min_signal_interval := by
              split at hthr
              · have h1 := sample_spread_ok_fields hsamp
                have h2 := update_thresholds_ok_fields hthr
                exact ⟨h2.1.trans h1.1, h2.2.1.trans h1.2⟩
              · cases hthr
                exact sample_spread_ok_fields hsamp
            split at h
            · cases h
              exact hfe2
            · split at h
              · split at h
                · cases h
                · cases h
                  exact hfe2
              · split at h
                · split at h
                  · cases h
                  · cases h
                    exact hfe2
                · cases h
                  exact hfe2
      · cases h
        exact sample_spread_ok_fields hsamp

lemma check_ok_some_spec {e : ArbitrageEngine} {m : OrderBookManager} {pos now : ℚ}
    {lat : ℕ} {e1 : ArbitrageEngine} {sig : ArbitrageSignal}
    (h : check_arbitrage_opportunity e m pos now lat = .ok (e1, some sig)) :
    sig.timestamp = now ∧ e1.last_signal_time = now ∧
    e1.min_signal_interval = e.min_signal_interval ∧
    e.min_signal_interval ≤ now - e.last_signal_time := by
  simp only [check_arbitrage_opportunity] at h
  split at h
  · cases h
  · split at h
    · cases h
    · rename_i ex hsamp
      split at h
      · split at h
        · cases h
        · split at h
          · cases h
          · rename_i e2 hthr
            have hfe2 : e2.last_signal_time = e.last_signal_time ∧
                e2.min_signal_interval = e.min_signal_interval := by
              split at hthr
              · have h1 := sample_spread_ok_fields hsamp
                have h2 := update_thresholds_ok_fields hthr
                exact ⟨h2.1.trans h1.1, h2.2.1.trans h1.2⟩
              · cases hthr
                exact sample_spread_ok_fields hsamp
            split at h
            · cases h
            · rename_i hint
              rw [hfe2.1, hfe2.2] at hint
              have hge : e.min_signal_interval ≤ now - e.last_signal_time :=
                le_of_not_lt hint
              split at h
              · split at h
                · cases h
                  exact ⟨rfl, rfl, hfe2.2, hge⟩
                · cases h
              · split at h
                · split at h
                  · cases h
                    exact ⟨rfl, rfl, hfe2.2, hge⟩
                  · cases h
                · cases h
      · cases h



lemma run_checks_gap (I : ℚ) (hI : 0 ≤ I) (cs : List CheckCall) :
    ∀ (e : ArbitrageEngine), e.min_signal_interval = I →
      (∀ s ∈ (run_checks e cs).2, e.last_signal_time + I ≤ s.timestamp) ∧
      List.Pairwise (fun a b => a.timestamp + I ≤ b.timestamp) (run_checks e cs).2 := by
  induction cs with
  | nil =>
    intro e he
    simp [run_checks]
  | cons c cs ih =>
    intro e he
    cases hc : check_arbitrage_opportunity e c.m c.pos c.now c.latency_ms with
    | error e1 =>
      have hf := check_error_fields hc
      have hrec := ih e1 (hf.2.trans he)
      have hrw : run_checks e (c :: cs) = run_checks e1 cs := by
        simp only [run_checks, hc]
      rw [hrw]
      refine ⟨?_, hrec.2⟩
      intro s hs
      have hss := hrec.1 s hs
      rw [hf.1] at hss
      exact hss
    | ok p =>
      rcases p with ⟨e1, osig⟩
      cases osig with
      | none =>
        have hf := check_ok_none_fields hc
        have hrec := ih e1 (hf.2.trans he)
        have hrw : run_checks e (c :: cs) = run_checks e1 cs := by
          simp only [run_checks, hc]
        rw [hrw]
        refine ⟨?_, hrec.2⟩
        intro s hs
        have hss := hrec.1 s hs
        rw [hf.1] at hss
        exact hss
      | some sig =>
        obtain ⟨hts, hlast, hmin, hge⟩ := check_ok_some_spec hc
        have hrec := ih e1 (hmin.trans he)
        rcases hrun : run_checks e1 cs with ⟨ef, sigs⟩
        have hrw : run_checks e (c :: cs) = (ef, sig :: sigs) := by
          simp only [run_checks, hc, hrun]
        rw [hrw]
        rw [hrun] at hrec
        rw [he] at hge
        have hfirst : e.last_signal_time + I ≤ sig.timestamp := by
          rw [hts]
          linarith
        have hrest : ∀ s ∈ sigs, sig.timestamp + I ≤ s.timestamp := by
          intro s hs
          have hss := hrec.1 s hs
          rw [hlast] at hss
          rw [hts]
          exact hss
        refine ⟨?_, List.pairwise_cons.mpr ⟨hrest, hrec.2⟩⟩
        intro s hs
        rcases List.mem_cons.mp hs with h | h
        · subst h; exact hfirst
        · have h2 := hrest s h
          linarith

/-- C6: across any sequence of `check_arbitrage_opportunity` calls (with a
non-negative configured interval), the emitted signals' creation timestamps
are pairwise at least `min_signal_interval` apart; moreover a signal is
emitted only when `now - last_signal_time ≥ min_signal_interval`, its
timestamp is that `now`, and `last_signal_time` is updated to it. -/
theorem c6_min_signal_interval (e : ArbitrageEngine) (cs : List CheckCall)
    (hI : 0 ≤ e.min_signal_interval) :
    List.Pairwise (fun a b => a.timestamp + e.min_signal_interval ≤ b.timestamp)
      (run_checks e cs).2 ∧
    (∀ (m : OrderBookManager) (pos now : ℚ) (lat : ℕ) (e1 : ArbitrageEngine)
        (sig : ArbitrageSignal),
      check_arbitrage_opportunity e m pos now lat = .ok (e1, some sig) →
      e.min_signal_interval ≤ now - e.last_signal_time ∧ sig.timestamp = now ∧
      e1.last_signal_time = now) := by
  refine ⟨(run_checks_gap e.min_signal_interval hI cs e rfl).2, ?_⟩
  intro m pos now lat e1 sig h
  obtain ⟨hts, hlast, -, hge⟩ := check_ok_some_spec h
  exact ⟨hge, hts, hlast⟩



example :
    ((run_checks engine_ready
        [{ m := books_ready, pos := 0, now := 0, latency_ms := 0 },
         { m := books_ready, pos := 0, now := 5, latency_ms := 0 }]).2.map
      (·.timestamp)) = [0, 5] := by
  norm_num [run_checks, check_arbitrage_opportunity, sample_spread, get_spread,
    py_truthy, update_thresholds, deque_append, calculate_adaptive_threshold,
    engine_ready, books_ready]

/-- C7 failing input: with `min_samples = 0` the very first check cycle in
which both venues quote raises `ZeroDivisionError` — `deque(maxlen=0)`
discards every sample, so `_update_thresholds` divides `sum(history)` by
`len(history) = 0` right after the sampling flag is cleared.  The `.error`
payload is the state committed before the raise (sampling flag already
cleared, sample counter already bumped, histories still empty). -/
theorem c7_min_samples_zero_raises :
    check_arbitrage_opportunity engine_min_samples_zero books_ready 0 0 0
      = .error { engine_min_samples_zero with is_sampling := false, sample_count := 1 } := by
  norm_num [check_arbitrage_opportunity, sample_spread, get_spread, py_truthy,
    update_thresholds, deque_append, engine_min_samples_zero, books_ready]


/-- C6 witness: a ready engine (interval 1 s) run over two cycles at
`now = 0` and `now = 5`; both emit, 5 seconds apart. -/
theorem c6_min_signal_interval_witness :
    (0 : ℚ) ≤ engine_ready.min_signal_interval ∧
    (List.Pairwise
        (fun a b => a.timestamp + engine_ready.min_signal_interval ≤ b.timestamp)
        (run_checks engine_ready
          [{ m := books_ready, pos := 0, now := 0, latency_ms := 0 },
           { m := books_ready, pos := 0, now := 5, latency_ms := 0 }]).2 ∧
     (∀ (m : OrderBookManager) (pos now : ℚ) (lat : ℕ) (e1 : ArbitrageEngine)
         (sig : ArbitrageSignal),
       check_arbitrage_opportunity engine_ready m pos now lat = .ok (e1, some sig) →
       engine_ready.min_signal_interval ≤ now - engine_ready.last_signal_time ∧
       sig.timestamp = now ∧ e1.last_signal_time = now)) :=
  ⟨by norm_num [engine_ready],
   c6_min_signal_interval engine_ready
     [{ m := books_ready, pos := 0, now := 0, latency_ms := 0 },
      { m := books_ready, pos := 0, now := 5, latency_ms := 0 }]
     (by norm_num [engine_ready])⟩

end Arb
